import Mathlib

/-!
Verification of the MyLinearSimilarity module
(allennlp/modules/similarity_functions/mylinear.py).

Tensors are modelled as a shape together with a total entry function over
the rationals; each tensor-library operation used by the code (matmul with
a vector, unsqueeze, permute, batched matmul, broadcast addition and
broadcast elementwise multiplication) is given its standard index-level
semantics.  The two assert statements of the forward method are modelled
as explicit checks returning an assertion error; the first assert in the
source carries no message, the second carries a formatted message.
Slicing of the weight vector clips both bounds to the vector length as in
Python.  forward models the scoring computation with only the two explicit
asserts; forwardChecked refines it by also modelling the tensor library's
runtime shape requirements of the operations used, which reject the empty
weight slices arising when part is 1 or 2.
-/

/-- A 2-D tensor of shape [size0, size1] with rational entries. -/
structure Tensor2 where
  size0 : ℕ
  size1 : ℕ
  entry : ℕ → ℕ → ℚ

/-- A 3-D tensor of shape [size0, size1, size2] with rational entries. -/
structure Tensor3 where
  size0 : ℕ
  size1 : ℕ
  size2 : ℕ
  entry : ℕ → ℕ → ℕ → ℚ

/-- A 1-D parameter tensor: a length together with an entry function. -/
structure WeightVec where
  len : ℕ
  entry : ℕ → ℚ

/-- Python slice w[a:b] of a 1-D tensor: both bounds are clipped to the
vector length, so the slice has length min b len - min a len (in
particular it is empty when a is at or past the end) and its entries are
read starting at the clipped lower bound. -/
def WeightVec.slice (w : WeightVec) (a b : ℕ) : WeightVec :=
  ⟨min b w.len - min a w.len, fun i => w.entry (min a w.len + i)⟩

/-- torch.matmul of a [B, L, d] tensor with a length-d vector: contracts the
last dimension, producing a [B, L] tensor. -/
def matmulVec (t : Tensor3) (w : WeightVec) : Tensor2 :=
  ⟨t.size0, t.size1, fun b i => ∑ k ∈ Finset.range w.len, t.entry b i k * w.entry k⟩

/-- tensor.unsqueeze(dim=2): [B, L] becomes [B, L, 1]. -/
def Tensor2.unsqueeze2 (t : Tensor2) : Tensor3 :=
  ⟨t.size0, t.size1, 1, fun b i _ => t.entry b i⟩

/-- tensor.unsqueeze(dim=1): [B, L] becomes [B, 1, L]. -/
def Tensor2.unsqueeze1 (t : Tensor2) : Tensor3 :=
  ⟨t.size0, 1, t.size1, fun b _ j => t.entry b j⟩

/-- tensor.permute(0, 2, 1): swap the last two dimensions. -/
def Tensor3.permute021 (t : Tensor3) : Tensor3 :=
  ⟨t.size0, t.size2, t.size1, fun b i j => t.entry b j i⟩

/-- Elementwise multiplication of a [B, L, d] tensor by a length-d vector,
broadcast over the first two dimensions. -/
def mulVecBroadcast (t : Tensor3) (w : WeightVec) : Tensor3 :=
  ⟨t.size0, t.size1, t.size2, fun b i k => t.entry b i k * w.entry k⟩

/-- Batched matrix product: [B, n, m] times [B, m, p] gives [B, n, p]. -/
def bmm (x y : Tensor3) : Tensor3 :=
  ⟨x.size0, x.size1, y.size2,
   fun b i j => ∑ k ∈ Finset.range x.size2, x.entry b i k * y.entry b k j⟩

/-- Result size of broadcasting two dimension sizes that are equal or where
one of them is 1: a size-1 dimension stretches to the other size. -/
def bsize (a b : ℕ) : ℕ := if a = 1 then b else a

/-- Broadcast addition of two 3-D tensors whose sizes agree up to
broadcasting; a size-1 dimension has a constant entry function along that
dimension, so pointwise addition of the entry functions is the broadcast
semantics. -/
def addBroadcast (x y : Tensor3) : Tensor3 :=
  ⟨bsize x.size0 y.size0, bsize x.size1 y.size1, bsize x.size2 y.size2,
   fun b i j => x.entry b i j + y.entry b i j⟩

/-- A Python AssertionError: a bare assert carries no message. -/
structure AssertionError where
  message : Option String
deriving DecidableEq

/-- The state of a MyLinearSimilarity module: the stored combination string,
the token count part, the weight vector, the length-1 bias tensor and the
activation function. -/
structure MyLinearSimilarity where
  combination : String
  part : ℕ
  weight_vector : WeightVec
  bias : WeightVec
  activation : ℚ → ℚ

/-- The forward method: checks the two asserts, then computes
sim_1.unsqueeze(2) + sim_2.unsqueeze(1) + matmul(tensor_1 * w_c, tensor_2
permuted), exactly as in the source.  The first assert raises a bare
AssertionError, the second one carries the formatted message. -/
def forward (s : MyLinearSimilarity) (tensor_1 tensor_2 : Tensor3) :
    Except AssertionError Tensor3 :=
  if tensor_1.size2 * s.part = s.weight_vector.len then
    let d := s.weight_vector.len / s.part
    if s.weight_vector.len % s.part = 0 then
      let sim_1 := matmulVec tensor_1 (s.weight_vector.slice 0 d)
      let sim_2 := matmulVec tensor_2 (s.weight_vector.slice d (2 * d))
      let sim_1u := sim_1.unsqueeze2
      let sim_2u := sim_2.unsqueeze1
      let sim_1_temp := mulVecBroadcast tensor_1 (s.weight_vector.slice (2 * d) (3 * d))
      let sim_2_temp := tensor_2.permute021
      let sim_1_2 := bmm sim_1_temp sim_2_temp
      Except.ok (addBroadcast (addBroadcast sim_1u sim_2u) sim_1_2)
    else
      Except.error ⟨some ("torch.Size([" ++ toString s.weight_vector.len ++ "]) vs "
        ++ toString s.part)⟩
  else
    Except.error ⟨none⟩

/-- Concrete test weight vector [1, 0, 0, 1, 1, 1] from the worked example. -/
def wTest : WeightVec := ⟨6, fun i => [(1 : ℚ), 0, 0, 1, 1, 1].getD i 0⟩

/-- Concrete test scorer: combination x,y,x*y, part 3, the test weight. -/
def sTest : MyLinearSimilarity :=
  ⟨"x,y,x*y", 3, wTest, ⟨1, fun _ => 0⟩, id⟩

/-- Concrete test input tensor_1 = [[[1, 2]]]. -/
def t1Test : Tensor3 := ⟨1, 1, 2, fun _ _ k => [(1 : ℚ), 2].getD k 0⟩

/-- Concrete test input tensor_2 = [[[3, 4]]]. -/
def t2Test : Tensor3 := ⟨1, 1, 2, fun _ _ k => [(3 : ℚ), 4].getD k 0⟩

/-- Concrete first input with feature dimension 1, inconsistent with the
test scorer: 1 * 3 is not 6. -/
def t1Bad : Tensor3 := ⟨1, 1, 1, fun _ _ _ => 0⟩

/-- Concrete second input with feature dimension 5, different from the
d = 2 expected by the test scorer. -/
def t2Bad : Tensor3 := ⟨1, 1, 5, fun _ _ _ => 0⟩

/-- Concrete scorer built from the default two-token combination x,y:
part 2, weight vector of length 4, so the third slice w[4:6] is empty. -/
def sPart2 : MyLinearSimilarity :=
  ⟨"x,y", 2, ⟨4, fun _ => 1⟩, ⟨1, fun _ => 0⟩, id⟩

/-- An error raised while scoring: one of the two explicit asserts, or a
shape error raised inside a tensor-library operation. -/
inductive ScoringError where
  | assertionError (message : Option String)
  | runtimeError (message : String)
deriving DecidableEq

/-- torch broadcasting compatibility of two dimension sizes: they must be
equal or one of them must be 1. -/
abbrev broadcastCompatible (a b : ℕ) : Prop := a = b ∨ a = 1 ∨ b = 1

/-- Refinement of forward that additionally models the tensor library's
runtime shape requirements of the operations in the source: the two
matmuls with a weight slice require the contraction dimensions to agree,
the elementwise multiplication requires the last dimension of tensor_1 to
be broadcast-compatible with the slice length, and the batched matmul
requires equal inner dimensions and broadcast-compatible batch sizes.
When every check passes the scoring expression is the same as in forward;
a failed check is the runtime error the tensor library raises before any
array is returned.  The sizes of intermediate results are taken from the
operands as in forward; the claims stated on this definition stay in
regions where every dimension matches exactly, so no broadcast stretching
of a size-1 dimension occurs. -/
def forwardChecked (s : MyLinearSimilarity) (tensor_1 tensor_2 : Tensor3) :
    Except ScoringError Tensor3 :=
  if tensor_1.size2 * s.part = s.weight_vector.len then
    let d := s.weight_vector.len / s.part
    if s.weight_vector.len % s.part = 0 then
      if tensor_1.size2 = (s.weight_vector.slice 0 d).len then
        if tensor_2.size2 = (s.weight_vector.slice d (2 * d)).len then
          if broadcastCompatible tensor_1.size2
              (s.weight_vector.slice (2 * d) (3 * d)).len then
            if tensor_1.size2 = tensor_2.size2 ∧
                broadcastCompatible tensor_1.size0 tensor_2.size0 then
              Except.ok (addBroadcast
                (addBroadcast
                  (matmulVec tensor_1 (s.weight_vector.slice 0 d)).unsqueeze2
                  (matmulVec tensor_2
                    (s.weight_vector.slice d (2 * d))).unsqueeze1)
                (bmm
                  (mulVecBroadcast tensor_1
                    (s.weight_vector.slice (2 * d) (3 * d)))
                  tensor_2.permute021))
            else Except.error (ScoringError.runtimeError
              "matmul: batch or inner dimensions cannot be multiplied")
          else Except.error (ScoringError.runtimeError
            "mul: the size of tensor_1 must match the size of the weight slice")
        else Except.error (ScoringError.runtimeError
          "matmul: tensor_2 and the weight slice cannot be multiplied")
      else Except.error (ScoringError.runtimeError
        "matmul: tensor_1 and the weight slice cannot be multiplied")
    else
      Except.error (ScoringError.assertionError
        (some ("torch.Size([" ++ toString s.weight_vector.len ++ "]) vs "
          ++ toString s.part)))
  else Except.error (ScoringError.assertionError none)

/-- Auxiliary splitter on character lists: Python str.split of a string on
the comma character, keeping empty pieces. -/
def splitCommaAux : List Char → List Char → List (List Char)
  | [], acc => [acc.reverse]
  | c :: rest, acc =>
    if c = ',' then acc.reverse :: splitCommaAux rest []
    else splitCommaAux rest (c :: acc)

/-- combination.split of the combination string on commas, as in Python:
the empty string yields one empty token. -/
def commaSplit (s : String) : List String :=
  (splitCommaAux s.data []).map String.mk

/-- A configuration error raised by the host framework. -/
structure ConfigurationError where
  message : String
deriving DecidableEq

/-- The six recognized combination tokens. -/
def recognizedTokens : List String := ["x", "y", "x*y", "x+y", "x-y", "x/y"]

/-- A token is recognized when it is one of the six supported forms. -/
abbrev recognizedToken (t : String) : Prop := t ∈ recognizedTokens

/-- Modelled from the spec: the per-token dimension computation of the host
framework helper get_combined_dim, whose source is not part of this
repository fragment.  A unary identity token contributes the respective
input dimension; an elementwise binary token requires the two dimensions to
match and contributes that common dimension; any other token is a
configuration error. -/
def combinationDimOfToken (token : String) (dim1 dim2 : ℕ) :
    Except ConfigurationError ℕ :=
  if token = "x" then Except.ok dim1
  else if token = "y" then Except.ok dim2
  else if token = "x*y" ∨ token = "x+y" ∨ token = "x-y" ∨ token = "x/y" then
    (if dim1 = dim2 then Except.ok dim1
     else Except.error ⟨"Tensor dims must match for operation " ++ token⟩)
  else Except.error ⟨"Invalid combination: " ++ token⟩

/-- Sum of the per-token dimensions over a token list, propagating the
first configuration error. -/
def sumCombinedDims (dim1 dim2 : ℕ) : List String → Except ConfigurationError ℕ
  | [] => Except.ok 0
  | t :: ts =>
    match combinationDimOfToken t dim1 dim2 with
    | Except.error e => Except.error e
    | Except.ok n =>
      match sumCombinedDims dim1 dim2 ts with
      | Except.error e => Except.error e
      | Except.ok m => Except.ok (n + m)

/-- Modelled from the spec: the host framework helper get_combined_dim sums,
per comma-separated token, the feature dimension appropriate to that token,
failing on the first unrecognized token or dimension mismatch. -/
def get_combined_dim (combination : String) (dim1 dim2 : ℕ) :
    Except ConfigurationError ℕ :=
  sumCombinedDims dim1 dim2 (commaSplit combination)

/-- The constructor of MyLinearSimilarity: stores the combination string,
computes part as the number of comma-separated tokens, computes combined_dim
through get_combined_dim (propagating its configuration error before any
parameter is allocated), allocates the weight vector of length combined_dim
and the length-1 bias, and applies reset_parameters; the randomly drawn
weight entries are abstracted as the function weightInit and the bias is
filled with 0. -/
def init (tensor_1_dim tensor_2_dim : ℕ) (combination : String)
    (activation : ℚ → ℚ) (weightInit : ℕ → ℚ) :
    Except ConfigurationError MyLinearSimilarity :=
  match get_combined_dim combination tensor_1_dim tensor_2_dim with
  | Except.error e => Except.error e
  | Except.ok combined_dim =>
      Except.ok
        { combination := combination
          part := (commaSplit combination).length
          weight_vector := ⟨combined_dim, weightInit⟩
          bias := ⟨1, fun _ => 0⟩
          activation := activation }

/-- The Glorot-style bound used by reset_parameters:
std equals the square root of 6 divided by (weight length + 1). -/
noncomputable def glorotStd (n : ℕ) : ℝ := Real.sqrt (6 / (n + 1))

/-- tensor.uniform_(lo, hi) on one entry, with the raw random draw u in
[0, 1] made explicit: the sampled value is lo + u * (hi - lo). -/
noncomputable def uniformFill (lo hi : ℝ) (u : ℕ → ℝ) : ℕ → ℝ :=
  fun i => lo + u i * (hi - lo)

/-- The weight entries produced by reset_parameters on a weight vector of
length n, given the raw uniform draws u. -/
noncomputable def reset_parameters_weight (n : ℕ) (u : ℕ → ℝ) : ℕ → ℝ :=
  uniformFill (-(glorotStd n)) (glorotStd n) u

/-- The bias value produced by reset_parameters: bias.data.fill_(0). -/
def reset_parameters_bias : ℝ := 0

/-- A value stored in a configuration object: an integer (dimensions are
sizes, modelled as naturals) or a string. -/
inductive ParamValue where
  | int (n : ℕ)
  | str (s : String)
deriving DecidableEq

/-- Modelled from the spec: a nested key-value configuration object is a
mapping from string keys to values; the Params class itself is not part of
this repository fragment. -/
abbrev ParamsMap : Type := List (String × ParamValue)

/-- Look up a key in a configuration object. -/
def lookupP : ParamsMap → String → Option ParamValue
  | [], _ => none
  | kv :: tl, key => if kv.1 = key then some kv.2 else lookupP tl key

/-- Remove a key from a configuration object. -/
def removeP : ParamsMap → String → ParamsMap
  | [], _ => []
  | kv :: tl, key =>
    if kv.1 = key then removeP tl key else kv :: removeP tl key

/-- The configuration object left over after extracting the four keys read
by from_params. -/
def leftoverP (p : ParamsMap) : ParamsMap :=
  removeP (removeP (removeP (removeP p "tensor_1_dim") "tensor_2_dim")
    "combination") "activation"

/-- Modelled from the spec: params.pop_int(key) reads a required integer,
removing it from the mapping; a missing key or a non-integer value is a
configuration error. -/
def pop_int (p : ParamsMap) (key : String) :
    Except ConfigurationError (ℕ × ParamsMap) :=
  match lookupP p key with
  | some (ParamValue.int n) => Except.ok (n, removeP p key)
  | some (ParamValue.str _) =>
      Except.error ⟨"key " ++ key ++ " is not an int"⟩
  | none => Except.error ⟨"key " ++ key ++ " is required"⟩

/-- Modelled from the spec: params.pop(key, default) reads an optional
value, removing it from the mapping, and returns the default when the key
is absent. -/
def popD (p : ParamsMap) (key : String) (default : ParamValue) :
    ParamValue × ParamsMap :=
  match lookupP p key with
  | some v => (v, removeP p key)
  | none => (default, p)

/-- Modelled from the spec: params.assert_empty(name) fails with a
configuration error when unrecognized keys remain after extraction. -/
def assert_empty (p : ParamsMap) (name : String) :
    Except ConfigurationError Unit :=
  if p.isEmpty then Except.ok ()
  else Except.error ⟨"Extra parameters passed to " ++ name⟩

/-- Extract the string payload of a popped optional value; the combination
and activation keys hold strings. -/
def expectStr (v : ParamValue) (key : String) :
    Except ConfigurationError String :=
  match v with
  | ParamValue.str s => Except.ok s
  | ParamValue.int _ =>
      Except.error ⟨"key " ++ key ++ " is not a string"⟩

/-- The from_params factory: pops tensor_1_dim and tensor_2_dim as required
integers, combination with default x,y, activation with default linear,
checks that no unrecognized key remains, and constructs the scorer with
exactly those values.  The external activation registry Activation.by_name
is abstracted as the function byName, and the random weight initialization
as weightInit. -/
def from_params (byName : String → ℚ → ℚ) (p : ParamsMap)
    (weightInit : ℕ → ℚ) : Except ConfigurationError MyLinearSimilarity :=
  match pop_int p "tensor_1_dim" with
  | Except.error e => Except.error e
  | Except.ok (tensor_1_dim, p1) =>
    match pop_int p1 "tensor_2_dim" with
    | Except.error e => Except.error e
    | Except.ok (tensor_2_dim, p2) =>
      match popD p2 "combination" (ParamValue.str "x,y") with
      | (combV, p3) =>
        match expectStr combV "combination" with
        | Except.error e => Except.error e
        | Except.ok combination =>
          match popD p3 "activation" (ParamValue.str "linear") with
          | (actV, p4) =>
            match expectStr actV "activation" with
            | Except.error e => Except.error e
            | Except.ok actName =>
              match assert_empty p4 "MyLinearSimilarity" with
              | Except.error e => Except.error e
              | Except.ok _ =>
                init tensor_1_dim tensor_2_dim combination (byName actName)
                  weightInit

/-! ### Helper lemmas -/

/-- When the first shape assert holds, the divisibility assert follows and
forward returns the composed tensor expression of the source. -/
lemma forward_eq_ok (s : MyLinearSimilarity) (t1 t2 : Tensor3)
    (h : t1.size2 * s.part = s.weight_vector.len) :
    forward s t1 t2 = Except.ok
      (addBroadcast
        (addBroadcast
          (matmulVec t1
            (s.weight_vector.slice 0 (s.weight_vector.len / s.part))).unsqueeze2
          (matmulVec t2
            (s.weight_vector.slice (s.weight_vector.len / s.part)
              (2 * (s.weight_vector.len / s.part)))).unsqueeze1)
        (bmm
          (mulVecBroadcast t1
            (s.weight_vector.slice (2 * (s.weight_vector.len / s.part))
              (3 * (s.weight_vector.len / s.part))))
          t2.permute021)) := by
  have hmod : s.weight_vector.len % s.part = 0 := by
    rw [← h]; exact Nat.mul_mod_left _ _
  simp [forward, h, hmod]

lemma bsize_self (a : ℕ) : bsize a a = a := by
  simp [bsize]

lemma bsize_one_left (b : ℕ) : bsize 1 b = b := by
  simp [bsize]

lemma bsize_bsize_one (a : ℕ) : bsize (bsize a 1) a = a := by
  by_cases h : a = 1 <;> simp [bsize, h]

/-! ### Claim theorems about forward -/

/-- When every assert and every tensor-library shape requirement holds,
forwardChecked returns the composed tensor expression of the source. -/
lemma forwardChecked_eq_ok (s : MyLinearSimilarity) (t1 t2 : Tensor3)
    (ha : t1.size2 * s.part = s.weight_vector.len)
    (h3 : t1.size2 =
      (s.weight_vector.slice 0 (s.weight_vector.len / s.part)).len)
    (h4 : t2.size2 =
      (s.weight_vector.slice (s.weight_vector.len / s.part)
        (2 * (s.weight_vector.len / s.part))).len)
    (h5 : broadcastCompatible t1.size2
      (s.weight_vector.slice (2 * (s.weight_vector.len / s.part))
        (3 * (s.weight_vector.len / s.part))).len)
    (h6 : t1.size2 = t2.size2 ∧ broadcastCompatible t1.size0 t2.size0) :
    forwardChecked s t1 t2 = Except.ok
      (addBroadcast
        (addBroadcast
          (matmulVec t1
            (s.weight_vector.slice 0 (s.weight_vector.len / s.part))).unsqueeze2
          (matmulVec t2
            (s.weight_vector.slice (s.weight_vector.len / s.part)
              (2 * (s.weight_vector.len / s.part)))).unsqueeze1)
        (bmm
          (mulVecBroadcast t1
            (s.weight_vector.slice (2 * (s.weight_vector.len / s.part))
              (3 * (s.weight_vector.len / s.part))))
          t2.permute021)) := by
  have hmod : s.weight_vector.len % s.part = 0 := by
    rw [← ha]; exact Nat.mul_mod_left _ _
  unfold forwardChecked
  rw [if_pos ha]
  dsimp only
  rw [if_pos hmod, if_pos h3, if_pos h4, if_pos h5, if_pos h6]

/-- Claim C2, counterexample: the scorer built from the default two-token
combination x,y with weight length 4 satisfies the weight/part
precondition for d = 2 (2 * 2 = 4), yet forward does not return an array
of shape [B, L1, L2]: the third weight slice w[4:6] is empty while
tensor_1's last dimension is 2, so the elementwise multiplication of the
source raises a runtime shape error before any result is produced. -/
theorem forward_shape_claim_cex :
    t1Test.size2 * sPart2.part = sPart2.weight_vector.len ∧
    forwardChecked sPart2 t1Test t2Test = Except.error
      (ScoringError.runtimeError
        "mul: the size of tensor_1 must match the size of the weight slice") :=
  ⟨rfl, rfl⟩

/-- Claim C2, amended: for every scorer with part 3 (weight length 3 * d)
and inputs of shapes [B, L1, d] and [B, L2, d], scoring passes the asserts
and every tensor-library shape requirement and the result has shape
exactly [B, L1, L2]; for part 1 or 2 the empty weight slices make the
tensor library raise before any result. -/
theorem forward_shape_correct_part3 (s : MyLinearSimilarity)
    (t1 t2 : Tensor3) (B L1 L2 d : ℕ)
    (h10 : t1.size0 = B) (h11 : t1.size1 = L1) (h12 : t1.size2 = d)
    (h20 : t2.size0 = B) (h21 : t2.size1 = L2) (h22 : t2.size2 = d)
    (hw : s.weight_vector.len = 3 * d) (hp : s.part = 3) :
    ∃ r, forwardChecked s t1 t2 = Except.ok r ∧
      r.size0 = B ∧ r.size1 = L1 ∧ r.size2 = L2 := by
  have hq : s.weight_vector.len / s.part = d := by
    rw [hw, hp]; exact Nat.mul_div_cancel_left d (by norm_num)
  have ha : t1.size2 * s.part = s.weight_vector.len := by
    rw [h12, hp, hw]; ring
  have hsl1 : (s.weight_vector.slice 0 (s.weight_vector.len / s.part)).len
      = d := by
    show min (s.weight_vector.len / s.part) s.weight_vector.len
      - min 0 s.weight_vector.len = d
    rw [hq, hw]; omega
  have hsl2 : (s.weight_vector.slice (s.weight_vector.len / s.part)
      (2 * (s.weight_vector.len / s.part))).len = d := by
    show min (2 * (s.weight_vector.len / s.part)) s.weight_vector.len
      - min (s.weight_vector.len / s.part) s.weight_vector.len = d
    rw [hq, hw]; omega
  have hsl3 : (s.weight_vector.slice (2 * (s.weight_vector.len / s.part))
      (3 * (s.weight_vector.len / s.part))).len = d := by
    show min (3 * (s.weight_vector.len / s.part)) s.weight_vector.len
      - min (2 * (s.weight_vector.len / s.part)) s.weight_vector.len = d
    rw [hq, hw]; omega
  have h3 : t1.size2 =
      (s.weight_vector.slice 0 (s.weight_vector.len / s.part)).len := by
    rw [h12, hsl1]
  have h4 : t2.size2 =
      (s.weight_vector.slice (s.weight_vector.len / s.part)
        (2 * (s.weight_vector.len / s.part))).len := by
    rw [h22, hsl2]
  have h5 : broadcastCompatible t1.size2
      (s.weight_vector.slice (2 * (s.weight_vector.len / s.part))
        (3 * (s.weight_vector.len / s.part))).len := by
    rw [h12, hsl3]
    exact Or.inl rfl
  have h6 : t1.size2 = t2.size2 ∧
      broadcastCompatible t1.size0 t2.size0 := by
    refine ⟨by rw [h12, h22], ?_⟩
    rw [h10, h20]
    exact Or.inl rfl
  refine ⟨_, forwardChecked_eq_ok s t1 t2 ha h3 h4 h5 h6, ?_, ?_, ?_⟩
  · show bsize (bsize t1.size0 t2.size0) t1.size0 = B
    rw [h10, h20, bsize_self, bsize_self]
  · show bsize (bsize t1.size1 1) t1.size1 = L1
    rw [h11, bsize_bsize_one]
  · show bsize (bsize 1 t2.size1) t2.size1 = L2
    rw [h21, bsize_one_left, bsize_self]

/-- Claim C2, witness: the concrete worked example passes every check and
has shape [1, 1, 1]. -/
theorem forward_shape_correct_part3_witness :
    ∃ r, forwardChecked sTest t1Test t2Test = Except.ok r ∧
      r.size0 = 1 ∧ r.size1 = 1 ∧ r.size2 = 1 :=
  forward_shape_correct_part3 sTest t1Test t2Test 1 1 1 2
    rfl rfl rfl rfl rfl rfl rfl rfl

/-- Claim C4: the stored bias and activation have no effect on scoring:
replacing both by any other values leaves the output of forward unchanged,
because neither is read in this code path. -/
theorem forward_ignores_bias_activation (s : MyLinearSimilarity)
    (b1 b2 : WeightVec) (a1 a2 : ℚ → ℚ) (t1 t2 : Tensor3) :
    forward { s with bias := b1, activation := a1 } t1 t2 =
      forward { s with bias := b2, activation := a2 } t1 t2 := rfl

/-- Claim C10: the shape assertions in forward constrain only tensor_1;
whenever the tensor_1 assert holds, forward proceeds past both asserts for
every tensor_2, in particular one whose last dimension differs from
weight_vector_length / part, so the mismatch is not caught by the explicit
precondition checks. -/
theorem forward_asserts_ignore_tensor2 (s : MyLinearSimilarity)
    (t1 t2 : Tensor3)
    (hne : t2.size2 ≠ s.weight_vector.len / s.part)
    (h : t1.size2 * s.part = s.weight_vector.len) :
    ∃ r, forward s t1 t2 = Except.ok r :=
  ⟨_, forward_eq_ok s t1 t2 h⟩

/-- Claim C10, witness: the test scorer expects d = 2 but a second input of
feature dimension 5 passes both asserts. -/
theorem forward_asserts_ignore_tensor2_witness :
    ∃ r, forward sTest t1Test t2Bad = Except.ok r :=
  forward_asserts_ignore_tensor2 sTest t1Test t2Bad (by decide) rfl

/-- Claim C6, counterexample: for the test scorer and a first input of
feature dimension 1 (so 1 * 3 is not 6), forward fails on the first assert,
whose AssertionError carries no message at all; in particular there is no
diagnostic message naming the actual shapes. -/
theorem forward_mismatch_without_message_cex :
    forward sTest t1Bad t2Test = Except.error ⟨none⟩ ∧
    ∀ m : String, forward sTest t1Bad t2Test ≠ Except.error ⟨some m⟩ := by
  refine ⟨rfl, ?_⟩
  intro m h
  rw [show forward sTest t1Bad t2Test = Except.error ⟨none⟩ from rfl] at h
  simp at h

/-- Claim C6, amended: when the last dimension of tensor_1 violates the
precondition, forward fails before any score is computed with an assertion
failure that carries no diagnostic message (only the separate divisibility
assert carries a message naming the shapes); when the precondition holds,
no assertion fails. -/
theorem forward_assertion_behavior (s : MyLinearSimilarity)
    (t1 t2 : Tensor3) :
    (t1.size2 * s.part ≠ s.weight_vector.len →
      forward s t1 t2 = Except.error ⟨none⟩) ∧
    (t1.size2 * s.part = s.weight_vector.len →
      ∃ r, forward s t1 t2 = Except.ok r) := by
  constructor
  · intro h
    simp [forward, h]
  · intro h
    exact ⟨_, forward_eq_ok s t1 t2 h⟩

/-- Claim C6, witness: the mismatching concrete input yields the bare
assertion error, and the matching concrete input passes both asserts. -/
theorem forward_assertion_behavior_witness :
    forward sTest t1Bad t2Test = Except.error ⟨none⟩ ∧
    (∃ r, forward sTest t1Test t2Test = Except.ok r) :=
  ⟨(forward_assertion_behavior sTest t1Bad t2Test).1 (by decide),
   (forward_assertion_behavior sTest t1Test t2Test).2 rfl⟩

/-- Claim C1: for a scorer whose weight vector has length 3 * d (and part 3,
as forced by the assert) and inputs with feature dimension d, forward
returns the tensor whose entry at [b, i, j] is the first-slice projection of
tensor_1 at i, plus the second-slice projection of tensor_2 at j, plus the
third-slice weighted bilinear interaction. -/
theorem forward_entry_formula (s : MyLinearSimilarity) (d : ℕ)
    (t1 t2 : Tensor3)
    (hw : s.weight_vector.len = 3 * d) (hp : s.part = 3)
    (h1 : t1.size2 = d) (h2 : t2.size2 = d) :
    ∃ r, forward s t1 t2 = Except.ok r ∧
      ∀ b i j, r.entry b i j =
        (∑ k ∈ Finset.range d, t1.entry b i k * s.weight_vector.entry k)
        + (∑ k ∈ Finset.range d, t2.entry b j k * s.weight_vector.entry (d + k))
        + (∑ k ∈ Finset.range d,
            t1.entry b i k * s.weight_vector.entry (2 * d + k)
              * t2.entry b j k) := by
  have h : t1.size2 * s.part = s.weight_vector.len := by
    rw [h1, hp, hw]; ring
  have hd : s.weight_vector.len / s.part = d := by
    rw [hw, hp]; exact Nat.mul_div_cancel_left d (by norm_num)
  have e1 : 2 * d - d = d := by omega
  have e2 : 3 * d - 2 * d = d := by omega
  have m0 : min 0 (3 * d) = 0 := by omega
  have m1 : min d (3 * d) = d := by omega
  have m2 : min (2 * d) (3 * d) = 2 * d := by omega
  have m3 : min (3 * d) (3 * d) = 3 * d := by omega
  have hq3 : 3 * d / 3 = d := Nat.mul_div_cancel_left d (by norm_num)
  refine ⟨_, forward_eq_ok s t1 t2 h, ?_⟩
  intro b i j
  simp only [addBroadcast, bmm, matmulVec, mulVecBroadcast, Tensor2.unsqueeze2,
    Tensor2.unsqueeze1, Tensor3.permute021, WeightVec.slice, hd, h1, hw, hp,
    hq3, m0, m1, m2, m3, Nat.sub_zero, Nat.zero_add, e1, e2]

/-- Claim C1, witness: the worked example with d = 2, weight vector
[1, 0, 0, 1, 1, 1], tensor_1 = [[[1, 2]]] and tensor_2 = [[[3, 4]]] gives
the similarity value 16. -/
theorem forward_entry_formula_witness :
    ∃ r, forward sTest t1Test t2Test = Except.ok r ∧ r.entry 0 0 0 = 16 := by
  obtain ⟨r, hr, hf⟩ := forward_entry_formula sTest 2 t1Test t2Test rfl rfl rfl rfl
  refine ⟨r, hr, ?_⟩
  rw [hf 0 0 0]
  norm_num [sTest, wTest, t1Test, t2Test, Finset.sum_range_succ]

/-- Characterization of a successful construction: init returns a scorer
exactly when get_combined_dim succeeds, and the scorer stores the
combination, the token count, the freshly initialized weight vector of
length combined_dim, the zero-filled length-1 bias and the activation. -/
lemma init_ok_iff (d1 d2 : ℕ) (c : String) (act : ℚ → ℚ) (u : ℕ → ℚ)
    (s : MyLinearSimilarity) :
    init d1 d2 c act u = Except.ok s ↔
      ∃ cd, get_combined_dim c d1 d2 = Except.ok cd ∧
        s = ⟨c, (commaSplit c).length, ⟨cd, u⟩, ⟨1, fun _ => 0⟩, act⟩ := by
  unfold init
  cases hg : get_combined_dim c d1 d2 with
  | error e => simp
  | ok cd =>
    simp only [Except.ok.injEq]
    constructor
    · intro h
      exact ⟨cd, rfl, h.symm⟩
    · rintro ⟨cd2, hcd, rfl⟩
      rw [hcd]

/-- forward reads only the part field and the weight vector of the scorer:
two scorers agreeing on those two fields score identically. -/
lemma forward_congr (s1 s2 : MyLinearSimilarity) (t1 t2 : Tensor3)
    (hp : s1.part = s2.part) (hw : s1.weight_vector = s2.weight_vector) :
    forward s1 t1 t2 = forward s2 t1 t2 := by
  unfold forward
  rw [hp, hw]

/-- Claim C3: the forward computation depends on the combination string only
through its token count: two scorers constructed from combination strings
with the same number of comma-separated tokens and the same combined
dimension, with the same weight initialization, bias and activation, produce
identical outputs on every pair of inputs. -/
theorem forward_depends_only_on_part (d1 d2 : ℕ) (c1 c2 : String)
    (act : ℚ → ℚ) (u : ℕ → ℚ) (s1 s2 : MyLinearSimilarity)
    (t1 t2 : Tensor3)
    (h1 : init d1 d2 c1 act u = Except.ok s1)
    (h2 : init d1 d2 c2 act u = Except.ok s2)
    (hTok : (commaSplit c1).length = (commaSplit c2).length)
    (hDim : s1.weight_vector.len = s2.weight_vector.len) :
    forward s1 t1 t2 = forward s2 t1 t2 := by
  obtain ⟨cd1, hg1, rfl⟩ := (init_ok_iff d1 d2 c1 act u s1).mp h1
  obtain ⟨cd2, hg2, rfl⟩ := (init_ok_iff d1 d2 c2 act u s2).mp h2
  have hcd : cd1 = cd2 := hDim
  subst hcd
  exact forward_congr _ _ t1 t2 hTok rfl

/-- Claim C3, witness: the combinations x,y,x*y and x,x,x both have three
tokens and combined dimension 3 with unit input dimensions, and the
resulting scorers coincide on the concrete inputs. -/
theorem forward_depends_only_on_part_witness :
    ∃ s1 s2, init 1 1 "x,y,x*y" id (fun _ => 0) = Except.ok s1 ∧
      init 1 1 "x,x,x" id (fun _ => 0) = Except.ok s2 ∧
      forward s1 t1Test t2Test = forward s2 t1Test t2Test := by
  refine ⟨_, _, rfl, rfl, ?_⟩
  exact forward_depends_only_on_part 1 1 "x,y,x*y" "x,x,x" id (fun _ => 0)
    _ _ t1Test t2Test rfl rfl rfl rfl

/-- Claim C5: after reset_parameters on a weight vector of length n, every
entry produced from a raw uniform draw in [0, 1] lies within [-std, std]
for std the square root of 6 / (n + 1), the bias is exactly 0, and for a
weight vector of length 3 * d this std is the square root of
6 / (3 * d + 1). -/
theorem reset_parameters_bounds (n : ℕ) (u : ℕ → ℝ) (i : ℕ)
    (h0 : 0 ≤ u i) (h1 : u i ≤ 1) :
    (-(glorotStd n) ≤ reset_parameters_weight n u i ∧
      reset_parameters_weight n u i ≤ glorotStd n) ∧
    reset_parameters_bias = 0 ∧
    (∀ d : ℕ, glorotStd (3 * d) = Real.sqrt (6 / (3 * d + 1))) := by
  have hstd : 0 ≤ glorotStd n := Real.sqrt_nonneg _
  unfold reset_parameters_weight uniformFill
  refine ⟨⟨?_, ?_⟩, rfl, ?_⟩
  · nlinarith
  · nlinarith
  · intro d
    unfold glorotStd
    congr 1
    push_cast
    ring

/-- Claim C5, witness: with n = 6 and the raw draw one half, the produced
entry lies in the Glorot interval and the bias is 0. -/
theorem reset_parameters_bounds_witness :
    (-(glorotStd 6) ≤ reset_parameters_weight 6 (fun _ => 1 / 2) 0 ∧
      reset_parameters_weight 6 (fun _ => 1 / 2) 0 ≤ glorotStd 6) ∧
    reset_parameters_bias = 0 ∧
    (∀ d : ℕ, glorotStd (3 * d) = Real.sqrt (6 / (3 * d + 1))) :=
  reset_parameters_bounds 6 (fun _ => 1 / 2) 0 (by norm_num) (by norm_num)

/-- An unrecognized token always yields a configuration error in the
per-token dimension computation. -/
lemma combinationDimOfToken_error_of_not_recognized (t : String)
    (d1 d2 : ℕ) (h : ¬ recognizedToken t) :
    ∃ e, combinationDimOfToken t d1 d2 = Except.error e := by
  simp only [recognizedToken, recognizedTokens, List.mem_cons,
    List.not_mem_nil, or_false, not_or] at h
  obtain ⟨h1, h2, h3, h4, h5, h6⟩ := h
  refine ⟨⟨"Invalid combination: " ++ t⟩, ?_⟩
  unfold combinationDimOfToken
  rw [if_neg h1, if_neg h2, if_neg (by simp [h3, h4, h5, h6])]

/-- A recognized token contributes the common dimension d when both input
dimensions are d. -/
lemma combinationDimOfToken_ok_of_recognized (t : String) (d : ℕ)
    (h : recognizedToken t) :
    combinationDimOfToken t d d = Except.ok d := by
  simp only [recognizedToken, recognizedTokens, List.mem_cons,
    List.not_mem_nil, or_false] at h
  rcases h with rfl | rfl | rfl | rfl | rfl | rfl <;>
    simp [combinationDimOfToken]

/-- If some token of the list maps to a configuration error, the summed
dimension computation errors as well. -/
lemma sumCombinedDims_error (d1 d2 : ℕ) (ts : List String) (t : String)
    (ht : t ∈ ts) (e : ConfigurationError)
    (he : combinationDimOfToken t d1 d2 = Except.error e) :
    ∃ e2, sumCombinedDims d1 d2 ts = Except.error e2 := by
  induction ts with
  | nil => cases ht
  | cons hd tl ih =>
    cases hh : combinationDimOfToken hd d1 d2 with
    | error e3 => exact ⟨e3, by unfold sumCombinedDims; rw [hh]⟩
    | ok n =>
      have ht2 : t ∈ tl := by
        rcases List.mem_cons.mp ht with rfl | hmem
        · rw [hh] at he; cases he
        · exact hmem
      obtain ⟨e2, he2⟩ := ih ht2
      exact ⟨e2, by unfold sumCombinedDims; rw [hh, he2]⟩

/-- When every token of the list is recognized and both input dimensions
are d, the summed dimension computation returns the token count times d. -/
lemma sumCombinedDims_all_recognized (d : ℕ) (ts : List String)
    (h : ∀ t ∈ ts, recognizedToken t) :
    sumCombinedDims d d ts = Except.ok (ts.length * d) := by
  induction ts with
  | nil => simp [sumCombinedDims]
  | cons hd tl ih =>
    have hh : combinationDimOfToken hd d d = Except.ok d :=
      combinationDimOfToken_ok_of_recognized hd d (h hd (by simp))
    have htl := ih (fun t ht => h t (by simp [ht]))
    unfold sumCombinedDims
    rw [hh, htl]
    simp [List.length_cons]
    ring

/-- Claim C7: construction raises a ConfigurationError (before the weight
vector or bias are allocated, which in this model means no scorer value is
produced) whenever the combination string contains a token outside the six
recognized forms, and a successful construction implies that every
comma-separated token is recognized. -/
theorem init_configuration_error (d1 d2 : ℕ) (c : String) (act : ℚ → ℚ)
    (u : ℕ → ℚ) :
    ((∃ t ∈ commaSplit c, ¬ recognizedToken t) →
      ∃ e, init d1 d2 c act u = Except.error e) ∧
    (∀ s, init d1 d2 c act u = Except.ok s →
      ∀ t ∈ commaSplit c, recognizedToken t) := by
  have key : ∀ t ∈ commaSplit c, ¬ recognizedToken t →
      ∃ e, init d1 d2 c act u = Except.error e := by
    intro t ht hnr
    obtain ⟨e, he⟩ := combinationDimOfToken_error_of_not_recognized t d1 d2 hnr
    obtain ⟨e2, he2⟩ := sumCombinedDims_error d1 d2 (commaSplit c) t ht e he
    refine ⟨e2, ?_⟩
    unfold init get_combined_dim
    rw [he2]
  constructor
  · rintro ⟨t, ht, hnr⟩
    exact key t ht hnr
  · intro s hs t ht
    by_contra hnr
    obtain ⟨e, he⟩ := key t ht hnr
    rw [hs] at he
    cases he

/-- Claim C7, witness: constructing with the combination x,z fails with a
configuration error since z is not a recognized token. -/
theorem init_configuration_error_witness :
    ∃ e, init 2 2 "x,z" id (fun _ => 0) = Except.error e :=
  (init_configuration_error 2 2 "x,z" id (fun _ => 0)).1
    ⟨"z", by decide, by decide⟩

/-- Claim C8: for every positive d, constructing with equal input
dimensions d and a combination of exactly 3 recognized comma-separated
tokens succeeds and yields a weight vector of length exactly 3 * d, a
length-1 bias, and part 3; the combined dimension is the per-token sum,
each recognized token contributing d. -/
theorem init_three_tokens_weight_length (d : ℕ) (hd : 0 < d) (c : String)
    (act : ℚ → ℚ) (u : ℕ → ℚ)
    (h3 : (commaSplit c).length = 3)
    (hrec : ∀ t ∈ commaSplit c, recognizedToken t) :
    ∃ s, init d d c act u = Except.ok s ∧
      s.weight_vector.len = 3 * d ∧ s.bias.len = 1 ∧ s.part = 3 := by
  have hok : sumCombinedDims d d (commaSplit c) =
      Except.ok ((commaSplit c).length * d) :=
    sumCombinedDims_all_recognized d (commaSplit c) hrec
  rw [h3] at hok
  refine ⟨⟨c, (commaSplit c).length, ⟨3 * d, u⟩, ⟨1, fun _ => 0⟩, act⟩,
    ?_, rfl, rfl, h3⟩
  unfold init get_combined_dim
  rw [hok]

/-- Claim C8, witness: with d = 2 and combination x,y,x*y the scorer has a
weight vector of length 6, a length-1 bias and part 3. -/
theorem init_three_tokens_weight_length_witness :
    ∃ s, init 2 2 "x,y,x*y" id (fun _ => 0) = Except.ok s ∧
      s.weight_vector.len = 3 * 2 ∧ s.bias.len = 1 ∧ s.part = 3 :=
  init_three_tokens_weight_length 2 (by norm_num) "x,y,x*y" id (fun _ => 0)
    rfl (by decide)

/-- Removing one key does not change the lookup of a different key. -/
lemma lookupP_removeP_ne (p : ParamsMap) (k k2 : String) (h : k ≠ k2) :
    lookupP (removeP p k) k2 = lookupP p k2 := by
  induction p with
  | nil => rfl
  | cons kv tl ih =>
    by_cases h1 : kv.1 = k
    · have h2 : ¬ kv.1 = k2 := by rw [h1]; exact h
      simp [removeP, lookupP, h1, h2, ih, h]
    · by_cases h2 : kv.1 = k2 <;>
        simp [removeP, lookupP, h1, h2, ih, h, Ne.symm h]

/-- Removing an absent key leaves the configuration object unchanged. -/
lemma removeP_eq_self_of_none (p : ParamsMap) (k : String)
    (h : lookupP p k = none) : removeP p k = p := by
  induction p with
  | nil => rfl
  | cons kv tl ih =>
    by_cases h1 : kv.1 = k
    · rw [lookupP, if_pos h1] at h
      cases h
    · rw [lookupP, if_neg h1] at h
      rw [removeP, if_neg h1, ih h]

/-- Characterization of a successful pop_int. -/
lemma pop_int_ok (p : ParamsMap) (k : String) (n : ℕ) (p2 : ParamsMap)
    (h : pop_int p k = Except.ok (n, p2)) :
    lookupP p k = some (ParamValue.int n) ∧ p2 = removeP p k := by
  unfold pop_int at h
  cases hl : lookupP p k with
  | none => rw [hl] at h; cases h
  | some v =>
    cases v with
    | int m =>
      rw [hl] at h
      injection h with h2
      injection h2 with h3 h4
      subst h3; subst h4
      exact ⟨rfl, rfl⟩
    | str s2 => rw [hl] at h; cases h

/-- The leftover component of popD is always the removal of the key. -/
lemma popD_snd (p : ParamsMap) (k : String) (dflt : ParamValue) :
    (popD p k dflt).2 = removeP p k := by
  unfold popD
  cases hl : lookupP p k with
  | none => exact (removeP_eq_self_of_none p k hl).symm
  | some v => rfl

/-- The value component of popD is the stored value, or the default when
the key is absent. -/
lemma popD_fst (p : ParamsMap) (k : String) (dflt : ParamValue) :
    lookupP p k = some (popD p k dflt).1 ∨
      (lookupP p k = none ∧ (popD p k dflt).1 = dflt) := by
  unfold popD
  cases hl : lookupP p k with
  | none => exact Or.inr ⟨rfl, rfl⟩
  | some v => exact Or.inl rfl

/-- A successful expectStr means the value was a string. -/
lemma expectStr_ok (v : ParamValue) (k s2 : String)
    (h : expectStr v k = Except.ok s2) : v = ParamValue.str s2 := by
  cases v with
  | int n => cases h
  | str s3 =>
    injection h with h2
    rw [h2]

/-- A successful assert_empty means the mapping was empty. -/
lemma assert_empty_ok (p : ParamsMap) (name : String) (u : Unit)
    (h : assert_empty p name = Except.ok u) : p = [] := by
  cases p with
  | nil => rfl
  | cons kv tl => cases h

/-- Claim C9: from_params reads tensor_1_dim and tensor_2_dim as required
integers, combination with default x,y and activation with default linear;
it fails when a required key is absent or when an unrecognized key remains
after extraction, and on success it returns exactly the scorer constructed
from those four values. -/
theorem from_params_spec (byName : String → ℚ → ℚ) (p : ParamsMap)
    (u : ℕ → ℚ) :
    ((lookupP p "tensor_1_dim" = none ∨ lookupP p "tensor_2_dim" = none) →
      ∃ e, from_params byName p u = Except.error e) ∧
    (leftoverP p ≠ [] → ∃ e, from_params byName p u = Except.error e) ∧
    (∀ s, from_params byName p u = Except.ok s →
      ∃ n1 n2 comb act,
        lookupP p "tensor_1_dim" = some (ParamValue.int n1) ∧
        lookupP p "tensor_2_dim" = some (ParamValue.int n2) ∧
        (lookupP p "combination" = some (ParamValue.str comb) ∨
          (lookupP p "combination" = none ∧ comb = "x,y")) ∧
        (lookupP p "activation" = some (ParamValue.str act) ∨
          (lookupP p "activation" = none ∧ act = "linear")) ∧
        leftoverP p = [] ∧
        init n1 n2 comb (byName act) u = Except.ok s) := by
  have main : ∀ s, from_params byName p u = Except.ok s →
      ∃ n1 n2 comb act,
        lookupP p "tensor_1_dim" = some (ParamValue.int n1) ∧
        lookupP p "tensor_2_dim" = some (ParamValue.int n2) ∧
        (lookupP p "combination" = some (ParamValue.str comb) ∨
          (lookupP p "combination" = none ∧ comb = "x,y")) ∧
        (lookupP p "activation" = some (ParamValue.str act) ∨
          (lookupP p "activation" = none ∧ act = "linear")) ∧
        leftoverP p = [] ∧
        init n1 n2 comb (byName act) u = Except.ok s := by
    intro s hs
    unfold from_params at hs
    split at hs
    · cases hs
    next n1 p1 heq1 =>
      split at hs
      · cases hs
      next n2 p2 heq2 =>
        split at hs
        next combV p3 heq3 =>
          split at hs
          · cases hs
          next comb heq4 =>
            split at hs
            next actV p4 heq5 =>
              split at hs
              · cases hs
              next act heq6 =>
                split at hs
                · cases hs
                next uu heq7 =>
                  obtain ⟨hl1, hp1⟩ := pop_int_ok p _ n1 p1 heq1
                  obtain ⟨hl2, hp2⟩ := pop_int_ok p1 _ n2 p2 heq2
                  have hp3 : p3 = removeP p2 "combination" := by
                    have h0 := popD_snd p2 "combination" (ParamValue.str "x,y")
                    rw [heq3] at h0
                    exact h0
                  have hp4 : p4 = removeP p3 "activation" := by
                    have h0 := popD_snd p3 "activation" (ParamValue.str "linear")
                    rw [heq5] at h0
                    exact h0
                  have hcv := popD_fst p2 "combination" (ParamValue.str "x,y")
                  rw [heq3] at hcv
                  have hav := popD_fst p3 "activation" (ParamValue.str "linear")
                  rw [heq5] at hav
                  have hcomb := expectStr_ok combV "combination" comb heq4
                  have hact := expectStr_ok actV "activation" act heq6
                  have hl2p : lookupP p "tensor_2_dim" =
                      some (ParamValue.int n2) := by
                    rw [hp1, lookupP_removeP_ne p _ _ (by decide)] at hl2
                    exact hl2
                  have htc : lookupP p2 "combination" =
                      lookupP p "combination" := by
                    rw [hp2, hp1, lookupP_removeP_ne _ _ _ (by decide),
                      lookupP_removeP_ne _ _ _ (by decide)]
                  have hta : lookupP p3 "activation" =
                      lookupP p "activation" := by
                    rw [hp3, hp2, hp1, lookupP_removeP_ne _ _ _ (by decide),
                      lookupP_removeP_ne _ _ _ (by decide),
                      lookupP_removeP_ne _ _ _ (by decide)]
                  have hnil : p4 = [] :=
                    assert_empty_ok p4 "MyLinearSimilarity" uu heq7
                  have hleft : leftoverP p = [] := by
                    rw [leftoverP, ← hp1, ← hp2, ← hp3, ← hp4, hnil]
                  refine ⟨n1, n2, comb, act, hl1, hl2p, ?_, ?_, hleft, hs⟩
                  · rcases hcv with h | ⟨h, hdef⟩
                    · rw [htc] at h
                      rw [hcomb] at h
                      exact Or.inl h
                    · rw [htc] at h
                      have hdef2 : combV = ParamValue.str "x,y" := hdef
                      rw [hdef2] at hcomb
                      injection hcomb with h2
                      exact Or.inr ⟨h, h2.symm⟩
                  · rcases hav with h | ⟨h, hdef⟩
                    · rw [hta] at h
                      rw [hact] at h
                      exact Or.inl h
                    · rw [hta] at h
                      have hdef2 : actV = ParamValue.str "linear" := hdef
                      rw [hdef2] at hact
                      injection hact with h2
                      exact Or.inr ⟨h, h2.symm⟩
  refine ⟨?_, ?_, main⟩
  · intro hmiss
    cases hfp : from_params byName p u with
    | error e => exact ⟨e, rfl⟩
    | ok s =>
      obtain ⟨n1, n2, comb, act, hl1, hl2, _, _, _, _⟩ := main s hfp
      rcases hmiss with hm | hm
      · rw [hm] at hl1; cases hl1
      · rw [hm] at hl2; cases hl2
  · intro hleft
    cases hfp : from_params byName p u with
    | error e => exact ⟨e, rfl⟩
    | ok s =>
      obtain ⟨_, _, _, _, _, _, _, _, hnil, _⟩ := main s hfp
      exact absurd hnil hleft

/-- Claim C9, witness: on the empty configuration object, the required key
tensor_1_dim is absent and from_params fails with a configuration error. -/
theorem from_params_spec_witness :
    ∃ e, from_params (fun _ => id) [] (fun _ => 0) = Except.error e :=
  (from_params_spec (fun _ => id) [] (fun _ => 0)).1 (Or.inl rfl)
